import Mathlib

/-!
Verification of the Building Characterization and Damage/Loss Engine of the
IDA2021_WindDamage repository (src/modules/building_losses.py), against its
natural-language specification.

The Python source is shallowly embedded: pandas DataFrames become lists of
records, float arithmetic becomes exact rational arithmetic (ℚ), the
globally-seeded numpy random generator becomes an explicit deterministic generator
state threaded through the functions, and file I/O becomes explicit
filesystem-state passing.  Every definition is translated from the source
file; line numbers in the doc comments refer to src/modules/building_losses.py.
-/

namespace WindDamage

/-! ## Configuration constants (config.py) -/

/-- config.BUILDING_DAMAGE_ID = 5 (building structural damage). -/
def BUILDING_DAMAGE_ID : Nat := 5

/-- config.CONTENTS_DAMAGE_ID = 6 (contents damage). -/
def CONTENTS_DAMAGE_ID : Nat := 6

/-- config.RANDOM_SEED = 121. -/
def RANDOM_SEED : Nat := 121

/-! ## Model of the numpy seeded global random generator

The source drives all probabilistic draws through the numpy global generator,
calling np.random.seed(seed) immediately before each batch of draws
(lines 188, 256, 297).  The embedding models the global generator as an
explicit state (a Nat) threaded through the computation; npSeed models
np.random.seed and discards the previous state, and one categorical draw
(np.random.choice) consumes one generator step.  The particular update
function is a stand-in for the numpy Mersenne Twister: the claims under
verification depend only on the generator being a deterministic function
of the seed, never on the distribution of its values. -/

/-- One deterministic generator step (stand-in for the numpy generator update). -/
def genStep (g : Nat) : Nat := (g * 1103515245 + 12345) % 2 ^ 31

/-- Models np.random.seed s: the global generator state becomes a function
of s alone; whatever state was there before is discarded. -/
def npSeed (s : Nat) : Nat := s % 2 ^ 31

/-- Models one np.random.choice call over a nonempty candidate list: picks an
element determined by the current generator state and advances the state.
The probability vector passed in the source changes which element is picked
but not the determinism, so the model lets the state alone select the index.
The default value "" is unreachable for the nonempty lists the source uses. -/
def npChoice (xs : List String) (g : Nat) : String × Nat :=
  (xs.getD (g % xs.length) "", genStep g)

/-- Successive np.random.choice draws from one candidate list, one per row of
a DataFrame group, as performed by Series.apply (lines 257, 298). -/
def drawStream (xs : List String) : Nat → Nat → List String × Nat
  | g, 0 => ([], g)
  | g, n + 1 =>
    let v := (npChoice xs g).1
    let p := drawStream xs (genStep g) n
    (v :: p.1, p.2)

/-- Models np.random.seed(seed) followed by n draws from xs (the
reseed-then-apply pattern at lines 256-258 and 297-299). -/
def drawBlock (xs : List String) (seed : Nat) (n : Nat) : List String × Nat :=
  drawStream xs (npSeed seed) n

/-! ## First-occurrence deduplication

pandas Series.unique() returns the distinct values in order of first
occurrence; it is used to enumerate counties, occupancy types, building
types, sampled subtypes (lines 182, 218, 234, 261) and county FIPS codes
during aggregation (line 671). -/

/-- Distinct values of a list in order of first occurrence
(models pandas Series.unique()). -/
def uniqueFirst {α : Type} [DecidableEq α] : List α → List α
  | [] => []
  | a :: l => a :: (uniqueFirst l).filter (fun x => x ≠ a)

theorem mem_uniqueFirst {α : Type} [DecidableEq α] (x : α) :
    ∀ l : List α, x ∈ uniqueFirst l ↔ x ∈ l := by
  intro l
  induction l with
  | nil => simp [uniqueFirst]
  | cons a l ih =>
    by_cases hxa : x = a
    · subst hxa; simp [uniqueFirst]
    · simp [uniqueFirst, List.mem_filter, ih, hxa]

theorem nodup_uniqueFirst {α : Type} [DecidableEq α] :
    ∀ l : List α, (uniqueFirst l).Nodup := by
  intro l
  induction l with
  | nil => simp [uniqueFirst]
  | cons a l ih =>
    refine List.Nodup.cons ?_ (List.Nodup.filter _ ih)
    intro hmem
    have h := (List.mem_filter.mp hmem).2
    simp at h

/-! ## Terrain classifier (lines 334-345) -/

/-- Terrain ID from surface roughness, translated from the if/elif chain at
lines 336-345 (Python chained comparisons such as 0.03 < terrain <= 0.15
become conjunctions). -/
def terrainClass (terrain : ℚ) : Nat :=
  if terrain ≤ 3 / 100 then 1
  else if 3 / 100 < terrain ∧ terrain ≤ 15 / 100 then 2
  else if 15 / 100 < terrain ∧ terrain ≤ 35 / 100 then 3
  else if 35 / 100 < terrain ∧ terrain ≤ 7 / 10 then 4
  else 5

/-! ## Piecewise-linear interpolation (np.interp, used at lines 533-534)

np.interp(x, xp, fp) with strictly increasing breakpoints xp: clamps to
fp.head below the first breakpoint and to fp.getLast above the last one,
and interpolates linearly in between.  The embedding works on the list of
(breakpoint, value) pairs; the empty-list case is unreachable in the source
(np.interp raises there) and is given the junk value 0. -/

/-- Piecewise-linear interpolation with flat extrapolation (np.interp). -/
def interp (x : ℚ) : List (ℚ × ℚ) → ℚ
  | [] => 0
  | [(_, y1)] => y1
  | (x1, y1) :: (x2, y2) :: rest =>
    if x ≤ x1 then y1
    else if x ≤ x2 then y1 + (y2 - y1) * (x - x1) / (x2 - x1)
    else interp x ((x2, y2) :: rest)

/-! ## Substring containment (pandas Series.str.contains, line 321)

The sampled characteristic values are plain words (for example shtys), so
the str.contains call of the source amounts to substring containment. -/

/-- Tests whether the second list is a prefix of the first. -/
def beginsWith : List Char → List Char → Bool
  | _, [] => true
  | [], _ :: _ => false
  | a :: hs, b :: ns => a = b && beginsWith hs ns

/-- Tests whether the second list occurs as a contiguous sublist of the first. -/
def containsSub : List Char → List Char → Bool
  | [], n => n.isEmpty
  | a :: hs, n => beginsWith (a :: hs) n || containsSub hs n

/-- String containment: needle occurs inside hay. -/
def strContains (hay needle : String) : Bool :=
  containsSub hay.toList needle.toList

/-- First n characters of a string (the Python slice s[:n], used for the
5-digit county FIPS prefix at lines 181 and 670). -/
def strTake (s : String) (n : Nat) : String :=
  String.mk (s.toList.take n)

/-! ## Data model

One record per row of the relevant tables.  NSI building rows keep the named
fields the engine reads (config.NSI_COLUMNS); the Hazus mapping workbook
sheets become lists of rows. -/

/-- One NSI building record (the fields read by the engine). -/
structure Building where
  fd_id : Nat
  cbfips : String
  occtype : String
  bldgtype : String
  surfaceRoughness : ℚ
  val_struct : ℚ
  val_cont : ℚ
deriving DecidableEq

/-- One row of the huMappingSchemesByCountyFips sheet. -/
structure CountySchemeRow where
  countyFIPS : String
  huBldgSchemeName : String
deriving DecidableEq

/-- One row of the huGbsOccMapping sheet; probs are the subtype-probability
columns (columns[2:] of the sheet), in sheet column order. -/
structure OccMapRow where
  huOccMapSchemeName : String
  occupancy : String
  probs : List ℚ
deriving DecidableEq

/-- One row of the huBldgMapping sheet. -/
structure BldgMapRow where
  huBldgSchemeName : String
  sbtName : String
  bldgCharID : Nat
  percentDist : ℚ
deriving DecidableEq

/-- One row of the huListofBldgChar sheet. -/
structure CharRow where
  charType : String
  bldgCharID : Nat
  bldgChar : String
deriving DecidableEq

/-- One row of the huListOfWindBldgTypes sheet.  charDescription can be
empty in the sheet (pandas NaN), modelled as none; str.contains with
na=False treats such rows as non-matching. -/
structure WindTypeRow where
  sbtName : String
  wbID : Nat
  charDescription : Option String
deriving DecidableEq

/-- The loaded Hazus mapping tables (lines 158-167), plus the column-name
list columns[2:] of the huGbsOccMapping sheet (line 231), which is shared
by all rows of that sheet. -/
structure HazusTables where
  countySchemes : List CountySchemeRow
  occMap : List OccMapRow
  subtypeCols : List String
  bldgMapping : List BldgMapRow
  charList : List CharRow
  windTypes : List WindTypeRow
deriving DecidableEq

/-- One enriched building row appended to building_list (lines 348-351):
the original record, its countyFIPS, its sampled subtype, its sampled
characteristic values (one per characteristic type; none models pd.NA), and
the appended wbID and terrainID columns. -/
structure Enriched where
  b : Building
  countyFIPS : String
  sbtName : String
  chars : List (String × Option String)
  wbID : Option Nat
  terrainID : Nat
deriving DecidableEq

/-- Looks up the sampled value of the building for a characteristic type
(the access rows[char] at lines 312, 321). -/
def sampleLookup (chars : List (String × Option String)) (c : String) : Option String :=
  match chars.find? (fun p => p.1 = c) with
  | some p => p.2
  | none => none

/-! ## Vulnerability-type (wbID) resolution (lines 304-332) -/

/-- The shutter-dependent exclusion (lines 311-317): when Shutters was
sampled, drop the garage-without-shutters characteristic type if shutters are
present (value shtys), and the garage-with-shutters one otherwise.  The
source guards each remove call by a membership test; List.erase has the same
remove-first-occurrence-if-present behaviour. -/
def shutterAdjust (charDesc : List String) (shutterVal : Option String) : List String :=
  if "Shutters" ∈ charDesc then
    if shutterVal = some "shtys" then
      if "Garage, Houses w/out Shutters" ∈ charDesc then
        charDesc.erase "Garage, Houses w/out Shutters"
      else charDesc
    else
      if "Garage, Houses with Shutters" ∈ charDesc then
        charDesc.erase "Garage, Houses with Shutters"
      else charDesc
  else charDesc

/-- One filter step (line 321): keep the candidates whose free-text
description contains the sampled value of the building; NaN descriptions and
unset samples never match (na=False). -/
def candFilter (cands : List WindTypeRow) (v : Option String) : List WindTypeRow :=
  cands.filter (fun w =>
    match v, w.charDescription with
    | some s, some d => strContains d s
    | _, _ => false)

/-- The narrowing loop over the remaining characteristic types
(lines 320-323): a filter step that would leave zero candidates leaves the
candidate set unchanged. -/
def matchWbId (sample : String → Option String) :
    List WindTypeRow → List String → List WindTypeRow
  | cands, [] => cands
  | cands, c :: cs =>
    let s1 := candFilter cands (sample c)
    matchWbId sample (if s1.length ≠ 0 then s1 else cands) cs

/-- Full wbID resolution for one building (lines 305-332): start from the
wind-building-type rows of the sampled subtype, apply the shutter exclusion,
run the narrowing loop, and take the first remaining candidate (pd.NA, that
is none, when the candidate list is empty). -/
def resolveWbID (windTypes : List WindTypeRow) (sbt : String)
    (charDesc : List String) (sample : String → Option String) : Option Nat :=
  let wbIdDf := windTypes.filter (fun w => w.sbtName = sbt)
  let charDesc1 := shutterAdjust charDesc (sample "Shutters")
  let final := matchWbId sample wbIdDf charDesc1
  (final.map (fun w => w.wbID)).head?

/-! ## Characterization engine main loop (lines 176-371) -/

/-- Subtype-name slice of the probability columns of the occupancy sheet by
building type code (lines 239-250): Occschemes[0:5], [5:19], [19:25],
[25:34], [34:]; any other building type code is skipped. -/
def sbtSlice (cols : List String) (bt : String) : Option (List String) :=
  if bt = "W" then some ((cols.drop 0).take 5)
  else if bt = "M" then some ((cols.drop 5).take 14)
  else if bt = "C" then some ((cols.drop 19).take 6)
  else if bt = "S" then some ((cols.drop 25).take 9)
  else if bt = "H" then some (cols.drop 34)
  else none

/-- Occupancy-suffix truncation (lines 223-225): cut the code at the first
hyphen when one is present. -/
def occBase (occ : String) : String :=
  String.mk (occ.toList.takeWhile (fun c => c ≠ '-'))

/-- Insertion step for sorting huBldgMapping rows by BLDGCHARID. -/
def insertByCharId (r : BldgMapRow) : List BldgMapRow → List BldgMapRow
  | [] => [r]
  | a :: l =>
    if r.bldgCharID ≤ a.bldgCharID then r :: a :: l else a :: insertByCharId r l

/-- Models probs_df.sort_values(by=[BLDGCHARID]) at line 288. -/
def sortByCharId (l : List BldgMapRow) : List BldgMapRow :=
  l.foldr insertByCharId []

/-- One characteristic type of the characteristic-sampling loop
(lines 277-301) over a subtype group of n buildings.  The accumulator holds
char_desc, the sampled per-building columns built so far (in catalog order),
and the generator state.  When the (scheme, subtype) pair defines ids of
this type, a value is drawn per building after reseeding (line 297),
restricting the value list to the first len(probs) entries when fewer
percentages than values exist (lines 291-294); otherwise the column is
pd.NA for every building (line 301). -/
def charStep (T : HazusTables) (seed : Nat) (n : Nat) (bldgCharId : List Nat)
    (huBldg : List BldgMapRow)
    (acc : List String × List (String × List (Option String)) × Nat)
    (ct : String) : List String × List (String × List (Option String)) × Nat :=
  let main := T.charList.filter (fun r => r.charType = ct)
  let mainList := main.map (fun r => r.bldgCharID)
  if mainList.any (fun i => bldgCharId.contains i) then
    let bldgChar := main.map (fun r => r.bldgChar)
    let probsDf := sortByCharId (huBldg.filter (fun r => mainList.contains r.bldgCharID))
    let probs := probsDf.map (fun r => r.percentDist / 100)
    let bldgChar1 :=
      if probs.length < bldgChar.length then bldgChar.take probs.length else bldgChar
    let d := drawBlock bldgChar1 seed n
    (acc.1 ++ [ct], acc.2.1 ++ [(ct, d.1.map some)], d.2)
  else
    (acc.1, acc.2.1 ++ [(ct, List.replicate n none)], acc.2.2)

/-- Per-building body of the row loop (lines 304-351): read the sampled
characteristic values of the building out of the sampled group columns, resolve
wbID, classify terrain, and build the enriched row appended to
building_list. -/
def enrichRow (T : HazusTables) (sbt : String) (charDesc : List String)
    (cols : List (String × List (Option String))) (i : Nat) (b : Building) :
    Enriched :=
  let chars := cols.map (fun c => (c.1, c.2.getD i none))
  { b := b
    countyFIPS := strTake b.cbfips 5
    sbtName := sbt
    chars := chars
    wbID := resolveWbID T.windTypes sbt charDesc (sampleLookup chars)
    terrainID := terrainClass b.surfaceRoughness }

/-- Processing of one sampled-subtype group df3 (lines 262-351): look up the
huBldgMapping rows for (scheme, subtype) and skip the group when none exist
(lines 265-271), sample the applicable characteristics, then build one
enriched row per building of the group. -/
def processSubtype (T : HazusTables) (seed : Nat) (schemeName sbt : String)
    (group : List Building) (g : Nat) : List Enriched × Nat :=
  let huBldg := T.bldgMapping.filter
    (fun r => r.huBldgSchemeName = schemeName ∧ r.sbtName = sbt)
  if huBldg.length = 0 then ([], g)
  else
    let bldgCharId := huBldg.map (fun r => r.bldgCharID)
    let charTypes := uniqueFirst (T.charList.map (fun r => r.charType))
    let res := charTypes.foldl (charStep T seed group.length bldgCharId huBldg) ([], [], g)
    let rows := group.enum.map (fun p => enrichRow T sbt res.1 res.2.1 p.1 p.2)
    (rows, res.2.2)

/-- Processing of one building-type group df2 (lines 235-263): slice the
subtype names, reseed and draw one subtype per building (lines 255-258,
the probability vector of line 253 steers the library draw but not the
model draw), then process each distinct sampled subtype in order. -/
def processBldgType (T : HazusTables) (seed : Nat) (schemeName : String)
    (bt : String) (group : List Building) (g : Nat) : List Enriched × Nat :=
  match sbtSlice T.subtypeCols bt with
  | none => ([], g)
  | some sbtNames =>
    let d := drawBlock sbtNames seed group.length
    let paired := group.zip d.1
    let sbts := uniqueFirst d.1
    sbts.foldl (fun acc sbt =>
      let df3 := (paired.filter (fun p => p.2 = sbt)).map (fun p => p.1)
      let r := processSubtype T seed schemeName sbt df3 acc.2
      (acc.1 ++ r.1, r.2)) ([], d.2)

/-- Processing of one occupancy group df1 (lines 219-234): truncate the
occupancy suffix, look it up in the occupancy mapping of the scheme and silently
skip the whole group when absent (lines 228-229), otherwise process each
distinct building type. -/
def processOcc (T : HazusTables) (seed : Nat) (schemeName : String)
    (huOccMap : List OccMapRow) (occ : String) (group : List Building)
    (g : Nat) : List Enriched × Nat :=
  let occ1 := occBase occ
  let huOcc := huOccMap.filter (fun r => r.occupancy = occ1)
  if huOcc.length = 0 then ([], g)
  else
    let bts := uniqueFirst (group.map (fun b => b.bldgtype))
    bts.foldl (fun acc bt =>
      let df2 := group.filter (fun b => b.bldgtype = bt)
      let r := processBldgType T seed schemeName bt df2 acc.2
      (acc.1 ++ r.1, r.2)) ([], g)

/-- Events the characterization stage surfaces per skip; the only per-skip
report the source emits is the warning for a county without a mapping
scheme (line 212). -/
inductive SkipEvent where
  | missingScheme (county : String)
deriving DecidableEq

/-- Processing of one county (lines 197-351): filter the buildings of the
county, look up its mapping scheme and skip the county with a logged
warning when none exists (lines 207-213), otherwise process each distinct
occupancy type. -/
def processCounty (T : HazusTables) (seed : Nat) (nsi : List Building)
    (cfip : String) (g : Nat) : List Enriched × List SkipEvent × Nat :=
  let df0 := nsi.filter (fun b => strTake b.cbfips 5 = cfip)
  match T.countySchemes.find? (fun r => r.countyFIPS = cfip) with
  | none => ([], [SkipEvent.missingScheme cfip], g)
  | some srow =>
    let huOccMap := T.occMap.filter
      (fun r => r.huOccMapSchemeName = srow.huBldgSchemeName)
    let occs := uniqueFirst (df0.map (fun b => b.occtype))
    let r := occs.foldl (fun acc occ =>
      let df1 := df0.filter (fun b => b.occtype = occ)
      let p := processOcc T seed srow.huBldgSchemeName huOccMap occ df1 acc.2
      (acc.1 ++ p.1, p.2)) ([], g)
    (r.1, [], r.2)

/-- Line 182 as written: cfips = [str(io) for i in nsi_cb[countyFIPS].unique()].
The expression of the comprehension uses the name io, which is bound nowhere in
the module, while the loop variable is i; evaluating the expression for the
first element raises NameError.  The error value models that exception; for
an empty building table the comprehension body never runs and yields []. -/
def cfipsLine182 (nsi : List Building) : Except Unit (List String) :=
  match uniqueFirst (nsi.map (fun b => strTake b.cbfips 5)) with
  | [] => Except.ok []
  | _ :: _ => Except.error ()

/-- The characterization pass of characterize_buildings (lines 176-359),
starting from the ambient numpy generator state g0: reseed with the run seed
(line 188), enumerate the counties (line 182, including its NameError,
which propagates out of the function), and fold the per-county processing.
Returns the enriched building list (building_list), the surfaced skip
events, and the final generator state. -/
def characterizePass (g0 : Nat) (seed : Nat) (T : HazusTables)
    (nsi : List Building) :
    Except Unit (List Enriched × List SkipEvent × Nat) :=
  let _ := g0
  let g1 := npSeed seed
  match cfipsLine182 nsi with
  | Except.error e => Except.error e
  | Except.ok cfips =>
    Except.ok (cfips.foldl (fun acc cfip =>
      let r := processCounty T seed nsi cfip acc.2.2
      (acc.1 ++ r.1, acc.2.1 ++ r.2.1, r.2.2)) ([], [], g1))

/-! ## Loss calculator (calculate_building_losses, lines 374-572) -/

/-- One row of the huDamLossFunc.csv damage-function table after dropping
the wbID, TERRAINID and DamLossDescID columns (lines 523-524): the key
fields plus the curve as (breakpoint, ratio) pairs, where the breakpoint is
the integer int(name[2:]) parsed from the wind-speed column name
(line 530).  A pandas row carries its own column labels, so each row keeps
its own breakpoint list. -/
structure DamRow where
  wbID : Nat
  terrainID : Nat
  damLossDescID : Nat
  curve : List (Nat × ℚ)
deriving DecidableEq

/-- One row of the joined wind table of a scenario (fd_id, Gust_Wind_Speed);
line 502 takes the first row matching the fd_id of the building. -/
structure WindRow where
  fd_id : Nat
  gustWindSpeed : ℚ
deriving DecidableEq

/-- One row appended to the losses list (lines 536-537). -/
structure LossRec where
  fd_id : Nat
  countyFIPS : String
  wbID : Nat
  terrainID : Nat
  windSpeed : ℚ
  buildingLoss : ℚ
  contentsLoss : ℚ
deriving DecidableEq

/-- Per-building loss computation (lines 492-537).  The positional reads
row1.iloc[1], iloc[3], iloc[12], iloc[13] on the dropna-ed checkpoint row
are the building identifier, county FIPS, structure replacement value and
contents replacement value of the NSI layout; the embedding reads them by
name.  A building whose wbID is pd.NA makes dropna shift the positional
accesses so that int() at line 498 falls on a non-numeric characteristic
string and raises; that exception (re-raised by lines 564-566) is the error
value, as is the np.interp length mismatch when the two curves disagree on
column count.  A missing wind-speed row (line 503) or a missing damage
curve of either class (line 520) skips the building: ok none. -/
def calcBuilding (dam : List DamRow) (windTbl : List WindRow) (e : Enriched) :
    Except Unit (Option LossRec) :=
  match e.wbID with
  | none => Except.error ()
  | some w =>
    match windTbl.find? (fun r => r.fd_id = e.b.fd_id) with
    | none => Except.ok none
    | some wr =>
      match dam.find? (fun r =>
              r.wbID = w ∧ r.terrainID = e.terrainID ∧
              r.damLossDescID = BUILDING_DAMAGE_ID),
            dam.find? (fun r =>
              r.wbID = w ∧ r.terrainID = e.terrainID ∧
              r.damLossDescID = CONTENTS_DAMAGE_ID) with
      | some bf, some cf =>
        let windSpeeds := bf.curve.map (fun p => ((p.1 : Nat) : ℚ))
        let valuesStr := bf.curve.map (fun p => p.2)
        let valuesCont := cf.curve.map (fun p => p.2)
        if valuesCont.length = windSpeeds.length then
          Except.ok (some
            { fd_id := e.b.fd_id
              countyFIPS := e.countyFIPS
              wbID := w
              terrainID := e.terrainID
              windSpeed := wr.gustWindSpeed
              buildingLoss := interp wr.gustWindSpeed (windSpeeds.zip valuesStr) * e.b.val_struct
              contentsLoss := interp wr.gustWindSpeed (windSpeeds.zip valuesCont) * e.b.val_cont })
        else Except.error ()
      | _, _ => Except.ok none

/-- The per-scenario loss loop (lines 487-543) over the checkpointed
inventory: accumulate the losses list and buildings_processed, the only
per-building reporting the loss stage maintains (lines 539-544). -/
def calcLosses (dam : List DamRow) (windTbl : List WindRow)
    (inventory : List Enriched) : Except Unit (List LossRec × Nat) :=
  inventory.foldlM (fun acc e =>
    match calcBuilding dam windTbl e with
    | Except.error er => Except.error er
    | Except.ok none => Except.ok acc
    | Except.ok (some lr) => Except.ok (acc.1 ++ [lr], acc.2 + 1)) ([], 0)

/-- A damage-curve row as (breakpoint, ratio) pairs over ℚ, pairing each
parsed wind speed of each column with the ratio of that same row. -/
def curveQ (c : List (Nat × ℚ)) : List (ℚ × ℚ) :=
  c.map (fun p => ((p.1 : ℚ), p.2))

/-! ## County/scenario aggregator (aggregate_county_losses, lines 575-719) -/

/-- The Python built-in round(x, 0): round half to even (bankers rounding). -/
def roundHalfEven (x : ℚ) : ℤ :=
  if Int.fract x < 1 / 2 then ⌊x⌋
  else if 1 / 2 < Int.fract x then ⌊x⌋ + 1
  else if Even ⌊x⌋ then ⌊x⌋ else ⌊x⌋ + 1

/-- One summary row of TotalLoss.csv (lines 695-699). -/
structure ScenarioTotals where
  year : String
  building : ℚ
  contents : ℚ
  total : ℚ
deriving DecidableEq

/-- County key of a loss record: first 5 characters of its county FIPS
(line 670). -/
def countyOf (r : LossRec) : String := strTake r.countyFIPS 5

/-- Per-county subtotals (lines 671-683): enumerate the distinct county
keys in first-occurrence order and sum building and contents losses over
the records of each county. -/
def countySubtotals (records : List LossRec) : List (String × ℚ × ℚ) :=
  (uniqueFirst (records.map countyOf)).map (fun c =>
    let df := records.filter (fun r => countyOf r = c)
    (c, (df.map (fun r => r.buildingLoss)).sum, (df.map (fun r => r.contentsLoss)).sum))

/-- Scenario-level totals (lines 686-695): sum the county subtotals, round
each to the nearest whole dollar, and report their sum as the combined
total. -/
def aggregateScenario (scenario : String) (records : List LossRec) : ScenarioTotals :=
  let sub := countySubtotals records
  let totalBldg : ℚ := (roundHalfEven ((sub.map (fun p => p.2.1)).sum) : ℤ)
  let totalCont : ℚ := (roundHalfEven ((sub.map (fun p => p.2.2)).sum) : ℤ)
  { year := scenario, building := totalBldg, contents := totalCont,
    total := totalBldg + totalCont }

/-! ## Checkpoint store (lines 116-135, 361-364, 475-479, 649-653)

File I/O is modelled by explicit state: a checkpoint slot is an optional
file that is either a well-formed serialization of a value or corrupt, and
the output directory of a stage is a list of (path, file) pairs. -/

/-- A checkpoint file on disk: a readable serialization of a value, or a
corrupt/unreadable file (the except branch at lines 132-134). -/
inductive CkptFile (α : Type) where
  | good (content : α)
  | corrupt
deriving DecidableEq

/-- The load-or-build contract of the characterization stage (lines 122-135 and
361-363): when the checkpoint exists, is readable and force is not set,
deserialize and return it without running the builder; a corrupt existing
file logs a warning and falls through to recomputation; otherwise run the
builder, serialize its result to the checkpoint path, and return it.
Returns (result, builder ran, file afterwards). -/
def loadOrBuild {α : Type} (file : Option (CkptFile α)) (force : Bool)
    (builder : α) : α × Bool × Option (CkptFile α) :=
  match file, force with
  | some (CkptFile.good a), false => (a, false, some (CkptFile.good a))
  | _, _ => (builder, true, some (CkptFile.good builder))

/-- The existence-gated skip of the loss and aggregation stages (lines
475-479 and 649-653): when the output path already exists and force is not
set, return the existing artifact untouched without recomputing; otherwise
compute, write the output file, and return it.
Returns (result, filesystem afterwards, stage recomputed). -/
def runStageSkip {α : Type} (fs : List (String × α)) (path : String)
    (force : Bool) (builder : α) : α × List (String × α) × Bool :=
  match fs.find? (fun p => p.1 = path), force with
  | some pa, false => (pa.2, fs, false)
  | _, _ => (builder, (path, builder) :: fs.filter (fun p => p.1 ≠ path), true)

/-! ## Theorems -/

/-! ### Terrain classifier (claim C4) -/

theorem terrainClass_one {r : ℚ} (h : r ≤ 3 / 100) : terrainClass r = 1 := by
  unfold terrainClass
  rw [if_pos h]

theorem terrainClass_two {r : ℚ} (h1 : 3 / 100 < r) (h2 : r ≤ 15 / 100) :
    terrainClass r = 2 := by
  unfold terrainClass
  rw [if_neg (not_le.mpr h1), if_pos ⟨h1, h2⟩]

theorem terrainClass_three {r : ℚ} (h1 : 15 / 100 < r) (h2 : r ≤ 35 / 100) :
    terrainClass r = 3 := by
  unfold terrainClass
  rw [if_neg (by linarith : ¬ r ≤ 3 / 100),
    if_neg (fun hc => absurd hc.2 (not_le.mpr h1)), if_pos ⟨h1, h2⟩]

theorem terrainClass_four {r : ℚ} (h1 : 35 / 100 < r) (h2 : r ≤ 7 / 10) :
    terrainClass r = 4 := by
  unfold terrainClass
  rw [if_neg (by linarith : ¬ r ≤ 3 / 100),
    if_neg (fun hc => absurd hc.2 (by push_neg; linarith)),
    if_neg (fun hc => absurd hc.2 (not_le.mpr h1)), if_pos ⟨h1, h2⟩]

theorem terrainClass_five {r : ℚ} (h1 : 7 / 10 < r) : terrainClass r = 5 := by
  unfold terrainClass
  rw [if_neg (by linarith : ¬ r ≤ 3 / 100),
    if_neg (fun hc => absurd hc.2 (by push_neg; linarith)),
    if_neg (fun hc => absurd hc.2 (by push_neg; linarith)),
    if_neg (fun hc => absurd hc.2 (not_le.mpr h1))]

theorem terrainClass_ge_one (r : ℚ) : 1 ≤ terrainClass r := by
  unfold terrainClass
  split_ifs <;> omega

theorem terrainClass_le_five (r : ℚ) : terrainClass r ≤ 5 := by
  unfold terrainClass
  split_ifs <;> omega

theorem terrainClass_le_two {r : ℚ} (h : r ≤ 15 / 100) : terrainClass r ≤ 2 := by
  rcases le_or_lt r (3 / 100) with h1 | h1
  · rw [terrainClass_one h1]; omega
  · rw [terrainClass_two h1 h]

theorem terrainClass_le_three {r : ℚ} (h : r ≤ 35 / 100) : terrainClass r ≤ 3 := by
  rcases le_or_lt r (15 / 100) with h1 | h1
  · exact le_trans (terrainClass_le_two h1) (by omega)
  · rw [terrainClass_three h1 h]

theorem terrainClass_le_four {r : ℚ} (h : r ≤ 7 / 10) : terrainClass r ≤ 4 := by
  rcases le_or_lt r (35 / 100) with h1 | h1
  · exact le_trans (terrainClass_le_three h1) (by omega)
  · rw [terrainClass_four h1 h]

/-- Claim C4: for every surface roughness r ≥ 0 the terrain classification
is total and deterministic, lands in {1,2,3,4,5}, realizes exactly the
thresholds r ≤ 0.03 → 1, 0.03 < r ≤ 0.15 → 2, 0.15 < r ≤ 0.35 → 3,
0.35 < r ≤ 0.7 → 4, otherwise 5, and is a non-decreasing step function
of r. -/
theorem terrainClass_spec :
    (∀ r : ℚ, 0 ≤ r →
      (r ≤ 3 / 100 → terrainClass r = 1) ∧
      (3 / 100 < r ∧ r ≤ 15 / 100 → terrainClass r = 2) ∧
      (15 / 100 < r ∧ r ≤ 35 / 100 → terrainClass r = 3) ∧
      (35 / 100 < r ∧ r ≤ 7 / 10 → terrainClass r = 4) ∧
      (7 / 10 < r → terrainClass r = 5) ∧
      (terrainClass r = 1 ∨ terrainClass r = 2 ∨ terrainClass r = 3 ∨
        terrainClass r = 4 ∨ terrainClass r = 5)) ∧
    (∀ r s : ℚ, r ≤ s → terrainClass r ≤ terrainClass s) := by
  constructor
  · intro r _
    refine ⟨terrainClass_one, fun h => terrainClass_two h.1 h.2,
      fun h => terrainClass_three h.1 h.2, fun h => terrainClass_four h.1 h.2,
      terrainClass_five, ?_⟩
    have h1 := terrainClass_ge_one r
    have h5 := terrainClass_le_five r
    omega
  · intro r s hrs
    rcases le_or_lt s (3 / 100) with h | h
    · rw [terrainClass_one h, terrainClass_one (le_trans hrs h)]
    rcases le_or_lt s (15 / 100) with h2 | h2
    · rw [terrainClass_two h h2]
      exact terrainClass_le_two (le_trans hrs h2)
    rcases le_or_lt s (35 / 100) with h3 | h3
    · rw [terrainClass_three h2 h3]
      exact terrainClass_le_three (le_trans hrs h3)
    rcases le_or_lt s (7 / 10) with h4 | h4
    · rw [terrainClass_four h3 h4]
      exact terrainClass_le_four (le_trans hrs h4)
    · rw [terrainClass_five h4]
      exact terrainClass_le_five r

/-- Witness for terrainClass_spec: concrete roughness values 0.1 (class 2)
and the monotone pair (0.5, 0.8). -/
theorem terrainClass_spec_witness :
    terrainClass (1 / 10) = 2 ∧ terrainClass (1 / 2) ≤ terrainClass (8 / 10) :=
  ⟨((terrainClass_spec.1 (1 / 10) (by norm_num)).2.1 ⟨by norm_num, by norm_num⟩),
    terrainClass_spec.2 (1 / 2) (8 / 10) (by norm_num)⟩

/-! ### Interpolation lemmas (claims C1 and C10) -/

/-- Strictly increasing breakpoints, as the damage-curve columns are. -/
def CurveSorted (l : List (ℚ × ℚ)) : Prop :=
  List.Chain' (fun p q => p.1 < q.1) l

theorem curveSorted_strict {a : ℚ × ℚ} {t : List (ℚ × ℚ)}
    (hc : CurveSorted (a :: t)) : ∀ p ∈ t, a.1 < p.1 := by
  induction t generalizing a with
  | nil => intro p hp; simp at hp
  | cons q t ih =>
    intro p hp
    obtain ⟨hab, hc2⟩ := List.chain'_cons.mp hc
    rcases List.mem_cons.mp hp with h | h
    · exact h ▸ hab
    · exact lt_trans hab (ih hc2 p h)

theorem interp_clamp_left {x x1 y1 : ℚ} {t : List (ℚ × ℚ)} (h : x ≤ x1) :
    interp x ((x1, y1) :: t) = y1 := by
  cases t with
  | nil => rfl
  | cons p t =>
    obtain ⟨x2, y2⟩ := p
    show (if x ≤ x1 then y1 else _) = y1
    rw [if_pos h]

theorem interp_segment {x x1 y1 x2 y2 : ℚ} {t : List (ℚ × ℚ)}
    (hlt : x1 < x2) (h1 : x1 ≤ x) (h2 : x ≤ x2) :
    interp x ((x1, y1) :: (x2, y2) :: t) =
      y1 + (y2 - y1) * (x - x1) / (x2 - x1) := by
  rcases le_or_lt x x1 with h | h
  · have hx : x = x1 := le_antisymm h h1
    subst hx
    rw [interp_clamp_left le_rfl]
    simp
  · show (if x ≤ x1 then y1 else if x ≤ x2 then _ else _) = _
    rw [if_neg (not_le.mpr h), if_pos h2]

theorem interp_skip {x x1 y1 x2 y2 : ℚ} {t : List (ℚ × ℚ)}
    (hlt : x1 < x2) (h : x2 < x) :
    interp x ((x1, y1) :: (x2, y2) :: t) = interp x ((x2, y2) :: t) := by
  show (if x ≤ x1 then y1 else if x ≤ x2 then _ else _) = _
  rw [if_neg (by linarith : ¬ x ≤ x1), if_neg (not_le.mpr h)]

theorem interp_breakpoint :
    ∀ (l : List (ℚ × ℚ)), CurveSorted l → ∀ p ∈ l, interp p.1 l = p.2
  | [], _, p, hp => absurd hp (List.not_mem_nil p)
  | [(a, b)], _, p, hp => by
    obtain rfl : p = (a, b) := List.mem_singleton.mp hp
    rfl
  | (a1, b1) :: (a2, b2) :: t, hc, p, hp => by
    obtain ⟨h12, hc2⟩ := List.chain'_cons.mp hc
    rcases List.mem_cons.mp hp with h | h
    · subst h
      exact interp_clamp_left le_rfl
    · have hgt : a1 < p.1 := curveSorted_strict hc p h
      have hge : a2 ≤ p.1 := by
        rcases List.mem_cons.mp h with h2 | h2
        · exact h2 ▸ le_rfl
        · exact le_of_lt (curveSorted_strict hc2 p h2)
      rcases le_or_lt p.1 a2 with hle | hlt2
      · have hx : p.1 = a2 := le_antisymm hle hge
        have hp2 : p = (a2, b2) := by
          rcases List.mem_cons.mp h with h2 | h2
          · exact h2
          · exact absurd hx (ne_of_gt (curveSorted_strict hc2 p h2))
        rw [interp_segment h12 (le_of_lt hgt) hle, hp2]
        have hne0 : a2 - a1 ≠ 0 := sub_ne_zero.mpr (ne_of_gt h12)
        show b1 + (b2 - b1) * (a2 - a1) / (a2 - a1) = b2
        rw [mul_div_assoc, div_self hne0, mul_one]
        ring
      · rw [interp_skip h12 hlt2]
        exact interp_breakpoint ((a2, b2) :: t) hc2 p h

theorem interp_clamp_right :
    ∀ (l : List (ℚ × ℚ)) (hne : l ≠ []) (x : ℚ), CurveSorted l →
      (l.getLast hne).1 ≤ x → interp x l = (l.getLast hne).2
  | [], hne, _, _, _ => absurd rfl hne
  | [(a, b)], _, x, _, _ => rfl
  | (a1, b1) :: (a2, b2) :: t, _, x, hc, hlast => by
    obtain ⟨h12, hc2⟩ := List.chain'_cons.mp hc
    have hne2 : (a2, b2) :: t ≠ [] := List.cons_ne_nil _ _
    have hgl : ((a1, b1) :: (a2, b2) :: t).getLast (List.cons_ne_nil _ _) =
        ((a2, b2) :: t).getLast hne2 := List.getLast_cons hne2
    rw [hgl] at hlast ⊢
    have ha2 : a2 ≤ (((a2, b2) :: t).getLast hne2).1 := by
      rcases List.mem_cons.mp (List.getLast_mem hne2) with h | h
      · rw [h]
      · exact le_of_lt (curveSorted_strict hc2 _ h)
    have h12q : a1 < a2 := h12
    rcases le_or_lt x a2 with hle | hlt
    · have hax : a2 ≤ x := le_trans ha2 hlast
      have hx2 : x = a2 := le_antisymm hle hax
      have hgl2 : ((a2, b2) :: t).getLast hne2 = (a2, b2) := by
        rcases List.mem_cons.mp (List.getLast_mem hne2) with h | h
        · exact h
        · exfalso
          have hgt := curveSorted_strict hc2 _ h
          have hle2 : (((a2, b2) :: t).getLast hne2).1 ≤ a2 := hx2 ▸ hlast
          exact absurd hle2 (not_le.mpr hgt)
      rw [hgl2]
      rw [interp_segment h12 (by linarith) hle, hx2]
      have hne0 : a2 - a1 ≠ 0 := sub_ne_zero.mpr (ne_of_gt h12q)
      show b1 + (b2 - b1) * (a2 - a1) / (a2 - a1) = b2
      rw [mul_div_assoc, div_self hne0, mul_one]
      ring
    · rw [interp_skip h12 hlt]
      exact interp_clamp_right ((a2, b2) :: t) hne2 x hc2 hlast

theorem zip_map_fst_snd (l : List (Nat × ℚ)) :
    (l.map (fun p => ((p.1 : ℚ)))).zip (l.map (fun p => p.2)) = curveQ l := by
  induction l with
  | nil => rfl
  | cons a l ih => simp [curveQ] at ih ⊢; exact ih

theorem zip_cols {bf cf : List (Nat × ℚ)}
    (h : cf.map (fun p => p.1) = bf.map (fun p => p.1)) :
    (bf.map (fun p => ((p.1 : ℚ)))).zip (cf.map (fun p => p.2)) = curveQ cf := by
  have hcast : bf.map (fun p => ((p.1 : ℚ))) = cf.map (fun p => ((p.1 : ℚ))) := by
    have h1 : bf.map (fun p => ((p.1 : ℚ))) =
        (bf.map (fun p => p.1)).map (fun n : Nat => (n : ℚ)) := by
      rw [List.map_map]; rfl
    have h2 : cf.map (fun p => ((p.1 : ℚ))) =
        (cf.map (fun p => p.1)).map (fun n : Nat => (n : ℚ)) := by
      rw [List.map_map]; rfl
    rw [h1, h2, h]
  rw [hcast, zip_map_fst_snd]

/-- Reduction of the per-building loss computation when every lookup
succeeds and the two curve rows agree on their breakpoint columns (they
always do in the source: both rows come from the one huDamLossFunc
DataFrame and so share its column labels). -/
theorem calcBuilding_eq {dam : List DamRow} {windTbl : List WindRow}
    {e : Enriched} {w : Nat} {wr : WindRow} {bf cf : DamRow}
    (hwb : e.wbID = some w)
    (hw : windTbl.find? (fun r => r.fd_id = e.b.fd_id) = some wr)
    (hb : dam.find? (fun r => r.wbID = w ∧ r.terrainID = e.terrainID ∧
      r.damLossDescID = BUILDING_DAMAGE_ID) = some bf)
    (hc : dam.find? (fun r => r.wbID = w ∧ r.terrainID = e.terrainID ∧
      r.damLossDescID = CONTENTS_DAMAGE_ID) = some cf)
    (hcols : cf.curve.map (fun p => p.1) = bf.curve.map (fun p => p.1)) :
    calcBuilding dam windTbl e = Except.ok (some
      { fd_id := e.b.fd_id
        countyFIPS := e.countyFIPS
        wbID := w
        terrainID := e.terrainID
        windSpeed := wr.gustWindSpeed
        buildingLoss := interp wr.gustWindSpeed (curveQ bf.curve) * e.b.val_struct
        contentsLoss := interp wr.gustWindSpeed (curveQ cf.curve) * e.b.val_cont }) := by
  have hlen : (cf.curve.map (fun p => p.2)).length =
      (bf.curve.map (fun p => ((p.1 : Nat) : ℚ))).length := by
    have := congrArg List.length hcols
    simpa using this
  unfold calcBuilding
  simp only [hwb, hw, hb, hc]
  rw [if_pos hlen]
  rw [zip_map_fst_snd, zip_cols hcols]

/-- Claim C1: every building the loss calculator emits has structural loss
equal to the piecewise-linearly interpolated ratio of the structural curve at
the wind speed of the building times the structure replacement value and
contents loss equal to the interpolated ratio of the contents curve times the
contents replacement value (the two curve rows share the huDamLossFunc
column layout); the interpolated ratio equals the stored ratio at an exact
breakpoint, is clamped to the nearest endpoint ratio outside the
breakpoint range, and is linear between breakpoints; and for the curve
{50: 0.00, 100: 0.50, 150: 1.00} at wind speed 75 with structure value
200000 the structural loss is 50000. -/
theorem losses_interpolation_spec :
    (∀ (dam : List DamRow) (windTbl : List WindRow) (e : Enriched) (w : Nat)
      (wr : WindRow) (bf cf : DamRow),
      e.wbID = some w →
      windTbl.find? (fun r => r.fd_id = e.b.fd_id) = some wr →
      dam.find? (fun r => r.wbID = w ∧ r.terrainID = e.terrainID ∧
        r.damLossDescID = BUILDING_DAMAGE_ID) = some bf →
      dam.find? (fun r => r.wbID = w ∧ r.terrainID = e.terrainID ∧
        r.damLossDescID = CONTENTS_DAMAGE_ID) = some cf →
      cf.curve.map (fun p => p.1) = bf.curve.map (fun p => p.1) →
      calcBuilding dam windTbl e = Except.ok (some
        { fd_id := e.b.fd_id
          countyFIPS := e.countyFIPS
          wbID := w
          terrainID := e.terrainID
          windSpeed := wr.gustWindSpeed
          buildingLoss := interp wr.gustWindSpeed (curveQ bf.curve) * e.b.val_struct
          contentsLoss := interp wr.gustWindSpeed (curveQ cf.curve) * e.b.val_cont })) ∧
    (∀ (p : ℚ × ℚ) (l : List (ℚ × ℚ)), CurveSorted l → p ∈ l →
      interp p.1 l = p.2) ∧
    (∀ (x x1 y1 : ℚ) (t : List (ℚ × ℚ)), x ≤ x1 →
      interp x ((x1, y1) :: t) = y1) ∧
    (∀ (l : List (ℚ × ℚ)) (hne : l ≠ []) (x : ℚ), CurveSorted l →
      (l.getLast hne).1 ≤ x → interp x l = (l.getLast hne).2) ∧
    (∀ (x x1 y1 x2 y2 : ℚ) (t : List (ℚ × ℚ)), x1 < x2 → x1 ≤ x → x ≤ x2 →
      interp x ((x1, y1) :: (x2, y2) :: t) =
        y1 + (y2 - y1) * (x - x1) / (x2 - x1)) ∧
    interp 75 [((50 : ℚ), 0), (100, 1 / 2), (150, 1)] = 1 / 4 ∧
    interp 75 [((50 : ℚ), 0), (100, 1 / 2), (150, 1)] * 200000 = 50000 := by
  have hconc : interp 75 [((50 : ℚ), 0), (100, 1 / 2), (150, 1)] = 1 / 4 := by
    rw [interp_segment (by norm_num) (by norm_num) (by norm_num)]
    norm_num
  refine ⟨?_, fun p l hs hp => interp_breakpoint l hs p hp,
    fun x x1 y1 t h => interp_clamp_left h,
    fun l hne x hs h => interp_clamp_right l hne x hs h,
    fun x x1 y1 x2 y2 t h1 h2 h3 => interp_segment h1 h2 h3,
    hconc, by rw [hconc]; norm_num⟩
  intro dam windTbl e w wr bf cf hwb hw hb hc hcols
  exact calcBuilding_eq hwb hw hb hc hcols

/-- Witness for losses_interpolation_spec: a one-building scenario with
explicit curves, plus the concrete 75-mph example of the spec. -/
theorem losses_interpolation_spec_witness :
    calcBuilding
      [⟨12, 3, 5, [(50, 0), (100, 1 / 2), (150, 1)]⟩,
       ⟨12, 3, 6, [(50, 0), (100, 1 / 4), (150, 1 / 2)]⟩]
      [⟨7, 75⟩]
      ⟨⟨7, "220710000000000", "RES1", "W", 1 / 10, 200000, 100000⟩,
        "22071", "WSF1", [], some 12, 3⟩ = Except.ok (some
        { fd_id := 7
          countyFIPS := "22071"
          wbID := 12
          terrainID := 3
          windSpeed := 75
          buildingLoss := interp 75 (curveQ [(50, 0), (100, 1 / 2), (150, 1)]) * 200000
          contentsLoss := interp 75 (curveQ [(50, 0), (100, 1 / 4), (150, 1 / 2)]) * 100000 }) ∧
    interp 75 [((50 : ℚ), 0), (100, 1 / 2), (150, 1)] * 200000 = 50000 :=
  ⟨losses_interpolation_spec.1 _ _ _ 12 ⟨7, 75⟩
      ⟨12, 3, 5, [(50, 0), (100, 1 / 2), (150, 1)]⟩
      ⟨12, 3, 6, [(50, 0), (100, 1 / 4), (150, 1 / 2)]⟩
      rfl rfl rfl rfl rfl,
    losses_interpolation_spec.2.2.2.2.2.2⟩

/-- Claim C10 (implicit): the contents loss ratio is interpolated over the
wind-speed breakpoints parsed from the column names of the structural row
(line 530) paired with the ratio values of the contents row, so it agrees with
an interpolation over the own breakpoints of the contents curve exactly when the
two rows share one breakpoint column layout. -/
theorem contents_use_structural_breakpoints :
    (∀ (dam : List DamRow) (windTbl : List WindRow) (e : Enriched) (w : Nat)
      (wr : WindRow) (bf cf : DamRow),
      e.wbID = some w →
      windTbl.find? (fun r => r.fd_id = e.b.fd_id) = some wr →
      dam.find? (fun r => r.wbID = w ∧ r.terrainID = e.terrainID ∧
        r.damLossDescID = BUILDING_DAMAGE_ID) = some bf →
      dam.find? (fun r => r.wbID = w ∧ r.terrainID = e.terrainID ∧
        r.damLossDescID = CONTENTS_DAMAGE_ID) = some cf →
      cf.curve.length = bf.curve.length →
      calcBuilding dam windTbl e = Except.ok (some
        { fd_id := e.b.fd_id
          countyFIPS := e.countyFIPS
          wbID := w
          terrainID := e.terrainID
          windSpeed := wr.gustWindSpeed
          buildingLoss := interp wr.gustWindSpeed (curveQ bf.curve) * e.b.val_struct
          contentsLoss := interp wr.gustWindSpeed
            ((bf.curve.map (fun p => ((p.1 : ℚ)))).zip (cf.curve.map (fun p => p.2))) *
            e.b.val_cont })) ∧
    (∀ (bf cf : DamRow) (x : ℚ),
      cf.curve.map (fun p => p.1) = bf.curve.map (fun p => p.1) →
      interp x ((bf.curve.map (fun p => ((p.1 : ℚ)))).zip (cf.curve.map (fun p => p.2))) =
        interp x (curveQ cf.curve)) := by
  constructor
  · intro dam windTbl e w wr bf cf hwb hw hb hc hlen
    have hlen2 : (cf.curve.map (fun p => p.2)).length =
        (bf.curve.map (fun p => ((p.1 : Nat) : ℚ))).length := by
      simpa using hlen
    unfold calcBuilding
    simp only [hwb, hw, hb, hc]
    rw [if_pos hlen2]
    rw [zip_map_fst_snd]
  · intro bf cf x hcols
    rw [zip_cols hcols]

/-- Witness for contents_use_structural_breakpoints: a contents row whose
column layout differs from the layout of the structural row (so its own breakpoints are
ignored), and the layout-agreement conjunct at an equal layout. -/
theorem contents_use_structural_breakpoints_witness :
    calcBuilding
      [⟨21, 2, 5, [(50, 0), (100, 1 / 2), (150, 1)]⟩,
       ⟨21, 2, 6, [(60, 0), (110, 1 / 4), (160, 1 / 2)]⟩]
      [⟨9, 80⟩]
      ⟨⟨9, "220510000000000", "RES1", "W", 1 / 100, 300000, 150000⟩,
        "22051", "WSF2", [], some 21, 2⟩ = Except.ok (some
        { fd_id := 9
          countyFIPS := "22051"
          wbID := 21
          terrainID := 2
          windSpeed := 80
          buildingLoss := interp 80 (curveQ [(50, 0), (100, 1 / 2), (150, 1)]) * 300000
          contentsLoss := interp 80
            (((([(50, 0), (100, 1 / 2), (150, 1)] : List (Nat × ℚ)).map
              (fun p => ((p.1 : ℚ)))).zip
              (([(60, 0), (110, 1 / 4), (160, 1 / 2)] : List (Nat × ℚ)).map
                (fun p => p.2)))) * 150000 }) ∧
    interp 80
      (((([(50, 0), (100, 1 / 2), (150, 1)] : List (Nat × ℚ)).map
        (fun p => ((p.1 : ℚ)))).zip
        (([(50, 0), (100, 1 / 4), (150, 1 / 2)] : List (Nat × ℚ)).map
          (fun p => p.2)))) =
      interp 80 (curveQ [(50, 0), (100, 1 / 4), (150, 1 / 2)]) :=
  ⟨contents_use_structural_breakpoints.1 _ _ _ 21 ⟨9, 80⟩
      ⟨21, 2, 5, [(50, 0), (100, 1 / 2), (150, 1)]⟩
      ⟨21, 2, 6, [(60, 0), (110, 1 / 4), (160, 1 / 2)]⟩
      rfl rfl rfl rfl rfl,
    contents_use_structural_breakpoints.2
      ⟨21, 2, 5, [(50, 0), (100, 1 / 2), (150, 1)]⟩
      ⟨21, 2, 6, [(50, 0), (100, 1 / 4), (150, 1 / 2)]⟩ 80 rfl⟩

/-! ### Vulnerability-type resolution (claims C2 and C3) -/

theorem matchWbId_step_filter {s : String → Option String}
    {cands : List WindTypeRow} {c : String} {cs : List String}
    (h : candFilter cands (s c) ≠ []) :
    matchWbId s cands (c :: cs) = matchWbId s (candFilter cands (s c)) cs := by
  have hlen : (candFilter cands (s c)).length ≠ 0 := by
    simpa [List.length_eq_zero] using h
  simp only [matchWbId, if_pos hlen]

theorem matchWbId_step_keep {s : String → Option String}
    {cands : List WindTypeRow} {c : String} {cs : List String}
    (h : candFilter cands (s c) = []) :
    matchWbId s cands (c :: cs) = matchWbId s cands cs := by
  have hlen : ¬ (candFilter cands (s c)).length ≠ 0 := by simp [h]
  simp only [matchWbId, if_neg hlen]

theorem matchWbId_ne_nil (s : String → Option String) :
    ∀ (cs : List String) (cands : List WindTypeRow),
      cands ≠ [] → matchWbId s cands cs ≠ [] := by
  intro cs
  induction cs with
  | nil => intro cands h; exact h
  | cons c cs ih =>
    intro cands h
    by_cases hf : candFilter cands (s c) = []
    · rw [matchWbId_step_keep hf]
      exact ih cands h
    · rw [matchWbId_step_filter hf]
      exact ih _ hf

theorem shutterAdjust_present {cd : List String} (h : "Shutters" ∈ cd) :
    shutterAdjust cd (some "shtys") = cd.erase "Garage, Houses w/out Shutters" := by
  unfold shutterAdjust
  rw [if_pos h, if_pos rfl]
  by_cases hm : "Garage, Houses w/out Shutters" ∈ cd
  · rw [if_pos hm]
  · rw [if_neg hm, List.erase_of_not_mem hm]

theorem shutterAdjust_absent {cd : List String} {v : Option String}
    (h : "Shutters" ∈ cd) (hv : v ≠ some "shtys") :
    shutterAdjust cd v = cd.erase "Garage, Houses with Shutters" := by
  unfold shutterAdjust
  rw [if_pos h, if_neg hv]
  by_cases hm : "Garage, Houses with Shutters" ∈ cd
  · rw [if_pos hm]
  · rw [if_neg hm, List.erase_of_not_mem hm]

theorem shutterAdjust_skip {cd : List String} (v : Option String)
    (h : "Shutters" ∉ cd) : shutterAdjust cd v = cd := by
  unfold shutterAdjust
  rw [if_neg h]

/-- Claim C2: the wbID resolution first applies the shutter-dependent
exclusion (shutters present, value shtys, removes the garage-without-
shutters characteristic type; shutters absent removes the garage-with-
shutters one), then processes the remaining characteristic types in catalog
order, each step filtering the candidate set to candidates whose free-text
description contains the sampled value except that a step that
would empty the set leaves it unchanged, and assigns the id of the first
remaining candidate. -/
theorem resolve_vulnerability_spec :
    (∀ cd : List String, "Shutters" ∈ cd →
      shutterAdjust cd (some "shtys") = cd.erase "Garage, Houses w/out Shutters") ∧
    (∀ (cd : List String) (v : Option String), "Shutters" ∈ cd → v ≠ some "shtys" →
      shutterAdjust cd v = cd.erase "Garage, Houses with Shutters") ∧
    (∀ (cd : List String) (v : Option String), "Shutters" ∉ cd →
      shutterAdjust cd v = cd) ∧
    (∀ (s : String → Option String) (cands : List WindTypeRow) (c : String)
      (cs : List String), candFilter cands (s c) ≠ [] →
      matchWbId s cands (c :: cs) = matchWbId s (candFilter cands (s c)) cs) ∧
    (∀ (s : String → Option String) (cands : List WindTypeRow) (c : String)
      (cs : List String), candFilter cands (s c) = [] →
      matchWbId s cands (c :: cs) = matchWbId s cands cs) ∧
    (∀ (s : String → Option String) (cands : List WindTypeRow),
      matchWbId s cands [] = cands) ∧
    (∀ (s : String → Option String) (cs : List String) (cands : List WindTypeRow),
      cands ≠ [] → matchWbId s cands cs ≠ []) ∧
    (∀ (wt : List WindTypeRow) (sbt : String) (cd : List String)
      (s : String → Option String),
      resolveWbID wt sbt cd s =
        ((matchWbId s (wt.filter (fun w => w.sbtName = sbt))
          (shutterAdjust cd (s "Shutters"))).map (fun w => w.wbID)).head?) :=
  ⟨fun cd h => shutterAdjust_present h,
    fun cd v h hv => shutterAdjust_absent h hv,
    fun cd v h => shutterAdjust_skip v h,
    fun s cands c cs h => matchWbId_step_filter h,
    fun s cands c cs h => matchWbId_step_keep h,
    fun s cands => rfl,
    fun s cs cands h => matchWbId_ne_nil s cs cands h,
    fun wt sbt cd s => rfl⟩

/-- Witness for resolve_vulnerability_spec: concrete exclusion lists, a
concrete discriminating filter step, and nonemptiness on a concrete
candidate set. -/
theorem resolve_vulnerability_spec_witness :
    shutterAdjust ["Shutters", "Garage, Houses w/out Shutters", "Roof Deck Attachment"]
        (some "shtys") =
      (["Shutters", "Garage, Houses w/out Shutters", "Roof Deck Attachment"].erase
        "Garage, Houses w/out Shutters") ∧
    matchWbId (fun _ => some "shtys")
        [⟨"WSF1", 3, some "with shtys and gable roof"⟩, ⟨"WSF1", 4, none⟩]
        ["Shutters"] =
      candFilter [⟨"WSF1", 3, some "with shtys and gable roof"⟩, ⟨"WSF1", 4, none⟩]
        (some "shtys") ∧
    matchWbId (fun _ => none)
        [⟨"WSF1", 3, some "with shtys and gable roof"⟩, ⟨"WSF1", 4, none⟩]
        ["Shutters"] ≠ [] :=
  ⟨resolve_vulnerability_spec.1 _ (by decide),
    resolve_vulnerability_spec.2.2.2.1 (fun _ => some "shtys") _ "Shutters" []
      (by decide),
    resolve_vulnerability_spec.2.2.2.2.2.2.1 (fun _ => none) ["Shutters"] _
      (by decide)⟩

theorem matchWbId_empty (s : String → Option String) :
    ∀ cs : List String, matchWbId s [] cs = [] := by
  intro cs
  induction cs with
  | nil => rfl
  | cons c cs ih =>
    rw [matchWbId_step_keep (show candFilter [] (s c) = [] from rfl)]
    exact ih

theorem resolveWbID_empty {wt : List WindTypeRow} {sbt : String}
    (h : wt.filter (fun w => w.sbtName = sbt) = []) (cd : List String)
    (s : String → Option String) : resolveWbID wt sbt cd s = none := by
  unfold resolveWbID
  rw [h]
  show ((matchWbId s [] (shutterAdjust cd (s "Shutters"))).map
    (fun w => w.wbID)).head? = none
  rw [matchWbId_empty]
  rfl

theorem enrichRow_proj {T : HazusTables} {sbt : String}
    (hcands : T.windTypes.filter (fun w => w.sbtName = sbt) = [])
    (cd : List String) (cols : List (String × List (Option String)))
    (i : Nat) (b : Building) :
    ((enrichRow T sbt cd cols i b).b, (enrichRow T sbt cd cols i b).wbID) =
      (b, none) := by
  show (b, resolveWbID T.windTypes sbt cd
    (sampleLookup (cols.map (fun c => (c.1, c.2.getD i none))))) = (b, none)
  rw [resolveWbID_empty hcands]

theorem enum_pair_map {γ : Type} (c : γ) (l : List Building) :
    l.enum.map (fun p => (p.2, c)) = l.map (fun b => (b, c)) := by
  have h : ∀ (n : Nat) (t : List Building),
      (List.enumFrom n t).map (fun p => (p.2, c)) = t.map (fun b => (b, c)) := by
    intro n t
    induction t generalizing n with
    | nil => rfl
    | cons a t ih => simp [List.enumFrom, ih]
  exact h 0 l

/-- Claim C3, amended: a building whose sampled subtype has an empty
candidate set of vulnerability-type ids receives no vulnerability-type id
(pd.NA) but is still appended, with all other buildings of its group, to
the enriched-inventory building list, without raising an exception; it is
not dropped. -/
theorem emptyCandidates_kept (T : HazusTables) (seed : Nat)
    (schemeName sbt : String) (group : List Building) (g : Nat)
    (hcands : T.windTypes.filter (fun w => w.sbtName = sbt) = [])
    (hmap : T.bldgMapping.filter
      (fun r => r.huBldgSchemeName = schemeName ∧ r.sbtName = sbt) ≠ []) :
    (processSubtype T seed schemeName sbt group g).1.map (fun e => (e.b, e.wbID)) =
      group.map (fun b => (b, (none : Option Nat))) := by
  have hlen : ¬ (T.bldgMapping.filter
      (fun r => r.huBldgSchemeName = schemeName ∧ r.sbtName = sbt)).length = 0 := by
    simpa [List.length_eq_zero] using hmap
  simp only [processSubtype]
  rw [if_neg hlen]
  rw [List.map_map]
  have hpt : ∀ p ∈ group.enum,
      ((fun e : Enriched => (e.b, e.wbID)) ∘
        (fun p : Nat × Building =>
          enrichRow T sbt
            ((uniqueFirst (T.charList.map (fun r => r.charType))).foldl
              (charStep T seed group.length
                ((T.bldgMapping.filter (fun r =>
                  r.huBldgSchemeName = schemeName ∧ r.sbtName = sbt)).map
                  (fun r => r.bldgCharID))
                (T.bldgMapping.filter (fun r =>
                  r.huBldgSchemeName = schemeName ∧ r.sbtName = sbt)))
              ([], [], g)).1
            ((uniqueFirst (T.charList.map (fun r => r.charType))).foldl
              (charStep T seed group.length
                ((T.bldgMapping.filter (fun r =>
                  r.huBldgSchemeName = schemeName ∧ r.sbtName = sbt)).map
                  (fun r => r.bldgCharID))
                (T.bldgMapping.filter (fun r =>
                  r.huBldgSchemeName = schemeName ∧ r.sbtName = sbt)))
              ([], [], g)).2.1
            p.1 p.2)) p = (p.2, (none : Option Nat)) := by
    intro p _
    exact enrichRow_proj hcands _ _ p.1 p.2
  rw [List.map_congr_left hpt]
  exact enum_pair_map none group

/-- Witness for emptyCandidates_kept: one building of subtype WSF2 whose
wind-building-type table is empty. -/
theorem emptyCandidates_kept_witness :
    (processSubtype
      ⟨[⟨"22071", "S1"⟩], [⟨"S1", "RES1", [1, 0, 0, 0, 0]⟩],
        ["WSF1", "WSF2", "WMUH1", "WMUH2", "WMUH3"],
        [⟨"S1", "WSF2", 101, 100⟩], [⟨"Roof Shape", 101, "rsg"⟩], []⟩
      121 "S1" "WSF2"
      [⟨7, "220710000000000", "RES1", "W", 0, 200000, 100000⟩] 121).1.map
        (fun e => (e.b, e.wbID)) =
      [⟨7, "220710000000000", "RES1", "W", 0, 200000, 100000⟩].map
        (fun b => (b, (none : Option Nat))) :=
  emptyCandidates_kept
    ⟨[⟨"22071", "S1"⟩], [⟨"S1", "RES1", [1, 0, 0, 0, 0]⟩],
      ["WSF1", "WSF2", "WMUH1", "WMUH2", "WMUH3"],
      [⟨"S1", "WSF2", 101, 100⟩], [⟨"Roof Shape", 101, "rsg"⟩], []⟩
    121 "S1" "WSF2"
    [⟨7, "220710000000000", "RES1", "W", 0, 200000, 100000⟩] 121
    rfl (by decide)

/-- Counterexample to claim C3 as stated: running the per-county
characterization on a one-building county whose sampled subtype has no
wind-building-type candidates at all, the building is present in the
enriched output (with no assigned wbID), not dropped. -/
theorem emptyCandidates_dropped_counterexample :
    (processCounty
      ⟨[⟨"22071", "S1"⟩], [⟨"S1", "RES1", [1, 0, 0, 0, 0]⟩],
        ["WSF1", "WSF2", "WMUH1", "WMUH2", "WMUH3"],
        [⟨"S1", "WSF2", 101, 100⟩], [⟨"Roof Shape", 101, "rsg"⟩], []⟩
      121 [⟨7, "220710000000000", "RES1", "W", 0, 200000, 100000⟩]
      "22071" 121).1.map (fun e => (e.b.fd_id, e.sbtName, e.wbID)) =
      [(7, "WSF2", none)] := by
  decide

/-! ### Checkpoint store (claims C5 and C7) -/

/-- Claim C5: when the checkpoint file exists, deserializes and force is
false, its content is returned unchanged and the builder never runs; when
the file is missing or force is set, the builder runs, its result is
serialized to the checkpoint path and returned; and a corrupt existing
checkpoint is treated as missing (recomputed after a logged warning)
rather than aborting the run. -/
theorem loadOrBuild_spec :
    (∀ (α : Type) (a builder : α),
      loadOrBuild (some (CkptFile.good a)) false builder =
        (a, false, some (CkptFile.good a))) ∧
    (∀ (α : Type) (builder : α),
      loadOrBuild (none : Option (CkptFile α)) false builder =
        (builder, true, some (CkptFile.good builder))) ∧
    (∀ (α : Type) (file : Option (CkptFile α)) (builder : α),
      loadOrBuild file true builder =
        (builder, true, some (CkptFile.good builder))) ∧
    (∀ (α : Type) (builder : α),
      loadOrBuild (some (CkptFile.corrupt : CkptFile α)) false builder =
        (builder, true, some (CkptFile.good builder))) := by
  refine ⟨fun α a builder => rfl, fun α builder => rfl, ?_, fun α builder => rfl⟩
  intro α file builder
  cases file with
  | none => rfl
  | some f => cases f <;> rfl

/-- Witness for loadOrBuild_spec: a concrete inventory checkpoint hit, and
a corrupt checkpoint falling back to the builder. -/
theorem loadOrBuild_spec_witness :
    loadOrBuild (some (CkptFile.good [(3 : Nat)])) false [(9 : Nat)] =
      ([3], false, some (CkptFile.good [3])) ∧
    loadOrBuild (some (CkptFile.corrupt : CkptFile (List Nat))) false [9] =
      ([9], true, some (CkptFile.good [9])) :=
  ⟨loadOrBuild_spec.1 (List Nat) [3] [9], loadOrBuild_spec.2.2.2 (List Nat) [9]⟩

theorem runStageSkip_idem {α : Type} (fs : List (String × α)) (path : String)
    (builder : α) :
    runStageSkip (runStageSkip fs path false builder).2.1 path false builder =
      ((runStageSkip fs path false builder).1,
        (runStageSkip fs path false builder).2.1, false) := by
  rcases hfind : fs.find? (fun p => p.1 = path) with _ | pa
  · simp only [runStageSkip, hfind]
    simp [List.find?_cons]
  · simp only [runStageSkip, hfind]

/-- Claim C7: each stage (Characterize, Calculate, Aggregate), invoked a
second time with unchanged inputs and no force flag, returns the artifact
content of the first invocation and performs no recomputation: the
characterization checkpoint is loaded instead of rebuilt, and the loss and
aggregation output files are detected and returned as they are. -/
theorem stages_idempotent :
    (∀ (file : Option (CkptFile (List Enriched))) (builder : List Enriched),
      loadOrBuild (loadOrBuild file false builder).2.2 false builder =
        ((loadOrBuild file false builder).1,
          false, (loadOrBuild file false builder).2.2)) ∧
    (∀ (fs : List (String × (List LossRec × Nat))) (path : String)
      (builder : List LossRec × Nat),
      runStageSkip (runStageSkip fs path false builder).2.1 path false builder =
        ((runStageSkip fs path false builder).1,
          (runStageSkip fs path false builder).2.1, false)) ∧
    (∀ (fs : List (String × ScenarioTotals)) (path : String)
      (builder : ScenarioTotals),
      runStageSkip (runStageSkip fs path false builder).2.1 path false builder =
        ((runStageSkip fs path false builder).1,
          (runStageSkip fs path false builder).2.1, false)) := by
  refine ⟨?_, fun fs path builder => runStageSkip_idem fs path builder,
    fun fs path builder => runStageSkip_idem fs path builder⟩
  intro file builder
  cases file with
  | none => rfl
  | some f => cases f <;> rfl

/-- Witness for stages_idempotent: a fresh run of each stage followed by a
second run, on concrete artifacts. -/
theorem stages_idempotent_witness :
    loadOrBuild (loadOrBuild (none : Option (CkptFile (List Enriched))) false []).2.2
        false [] =
      ((loadOrBuild (none : Option (CkptFile (List Enriched))) false []).1,
        false, (loadOrBuild (none : Option (CkptFile (List Enriched))) false []).2.2) ∧
    runStageSkip
        (runStageSkip ([] : List (String × (List LossRec × Nat))) "Losses.csv"
          false ([], 0)).2.1 "Losses.csv" false ([], 0) =
      ((runStageSkip ([] : List (String × (List LossRec × Nat))) "Losses.csv"
          false ([], 0)).1,
        (runStageSkip ([] : List (String × (List LossRec × Nat))) "Losses.csv"
          false ([], 0)).2.1, false) :=
  ⟨stages_idempotent.1 none [],
    stages_idempotent.2.1 [] "Losses.csv" ([], 0)⟩

/-! ### Aggregation (claim C6) -/

theorem sum_map_add {κ : Type} (ks : List κ) (g h : κ → ℚ) :
    (ks.map (fun k => g k + h k)).sum = (ks.map g).sum + (ks.map h).sum := by
  induction ks with
  | nil => simp
  | cons a ks ih =>
    simp only [List.map_cons, List.sum_cons, ih]
    ring

theorem sum_ite_of_not_mem {κ : Type} [DecidableEq κ] (k0 : κ) (v : ℚ) :
    ∀ ks : List κ, k0 ∉ ks →
      (ks.map (fun k => if k0 = k then v else 0)).sum = 0 := by
  intro ks
  induction ks with
  | nil => intro _; rfl
  | cons a ks ih =>
    intro h
    have hne : k0 ≠ a := fun he => h (he ▸ List.mem_cons_self a ks)
    simp only [List.map_cons, List.sum_cons, if_neg hne]
    rw [ih (fun hm => h (List.mem_cons_of_mem a hm))]
    ring

theorem sum_ite_single {κ : Type} [DecidableEq κ] (k0 : κ) (v : ℚ) :
    ∀ ks : List κ, ks.Nodup → k0 ∈ ks →
      (ks.map (fun k => if k0 = k then v else 0)).sum = v := by
  intro ks
  induction ks with
  | nil => intro _ h; simp at h
  | cons a ks ih =>
    intro hnd hmem
    rcases List.mem_cons.mp hmem with h | h
    · simp only [List.map_cons, List.sum_cons, if_pos h]
      rw [sum_ite_of_not_mem k0 v ks (h ▸ (List.nodup_cons.mp hnd).1)]
      ring
    · have hne : k0 ≠ a := fun he => (List.nodup_cons.mp hnd).1 (he ▸ h)
      simp only [List.map_cons, List.sum_cons, if_neg hne]
      rw [ih (List.nodup_cons.mp hnd).2 h]
      ring

/-- Summing fiber sums over a duplicate-free covering key list equals the
total sum. -/
theorem sum_fibers {α κ : Type} [DecidableEq κ] (key : α → κ) (f : α → ℚ) :
    ∀ (l : List α) (ks : List κ), ks.Nodup → (∀ r ∈ l, key r ∈ ks) →
      (ks.map (fun k => ((l.filter (fun r => key r = k)).map f).sum)).sum =
        (l.map f).sum := by
  intro l
  induction l with
  | nil => intro ks _ _; simp
  | cons r l ih =>
    intro ks hnd hcov
    have hcov2 : ∀ x ∈ l, key x ∈ ks :=
      fun x hx => hcov x (List.mem_cons_of_mem r hx)
    have hstep : ∀ k ∈ ks,
        (((r :: l).filter (fun x => key x = k)).map f).sum =
          (if key r = k then f r else 0) +
            ((l.filter (fun x => key x = k)).map f).sum := by
      intro k _
      by_cases h : key r = k
      · rw [List.filter_cons_of_pos (by simpa using h)]
        simp [h]
      · rw [List.filter_cons_of_neg (by simpa using h)]
        simp [h]
    rw [List.map_congr_left hstep, sum_map_add,
      sum_ite_single (key r) (f r) ks hnd (hcov r (List.mem_cons_self r l)),
      ih ks hnd hcov2]
    simp

theorem roundHalfEven_intCast (n : ℤ) : roundHalfEven ((n : ℚ)) = n := by
  unfold roundHalfEven
  rw [Int.fract_intCast, if_pos (by norm_num : (0 : ℚ) < 1 / 2)]
  exact Int.floor_intCast n

/-- Claim C6: for the loss records of every scenario, the direct sum of
per-building structural losses equals the sum of the per-county structural
subtotals, which (rounded only at this final step) is the reported
structural total of the scenario; the same holds for contents; and the reported
combined total equals the sum of the structural and contents totals, which
being whole equals that sum rounded to the nearest whole dollar. -/
theorem aggregation_spec :
    ∀ (scenario : String) (records : List LossRec),
      ((countySubtotals records).map (fun p => p.2.1)).sum =
        (records.map (fun r => r.buildingLoss)).sum ∧
      ((countySubtotals records).map (fun p => p.2.2)).sum =
        (records.map (fun r => r.contentsLoss)).sum ∧
      (aggregateScenario scenario records).building =
        ((roundHalfEven (((countySubtotals records).map (fun p => p.2.1)).sum) : ℤ) : ℚ) ∧
      (aggregateScenario scenario records).contents =
        ((roundHalfEven (((countySubtotals records).map (fun p => p.2.2)).sum) : ℤ) : ℚ) ∧
      (aggregateScenario scenario records).total =
        (aggregateScenario scenario records).building +
          (aggregateScenario scenario records).contents ∧
      (aggregateScenario scenario records).total =
        ((roundHalfEven ((aggregateScenario scenario records).building +
          (aggregateScenario scenario records).contents) : ℤ) : ℚ) := by
  intro scenario records
  have hcover : ∀ r ∈ records, countyOf r ∈ uniqueFirst (records.map countyOf) :=
    fun r hr => (mem_uniqueFirst _ _).mpr (List.mem_map_of_mem countyOf hr)
  have hb : ((countySubtotals records).map (fun p => p.2.1)).sum =
      (records.map (fun r => r.buildingLoss)).sum := by
    unfold countySubtotals
    rw [List.map_map]
    exact sum_fibers countyOf (fun r => r.buildingLoss) records
      (uniqueFirst (records.map countyOf)) (nodup_uniqueFirst _) hcover
  have hc : ((countySubtotals records).map (fun p => p.2.2)).sum =
      (records.map (fun r => r.contentsLoss)).sum := by
    unfold countySubtotals
    rw [List.map_map]
    exact sum_fibers countyOf (fun r => r.contentsLoss) records
      (uniqueFirst (records.map countyOf)) (nodup_uniqueFirst _) hcover
  have htotal : (aggregateScenario scenario records).total =
      (aggregateScenario scenario records).building +
        (aggregateScenario scenario records).contents := rfl
  refine ⟨hb, hc, rfl, rfl, htotal, ?_⟩
  have hbuild : (aggregateScenario scenario records).building =
      ((roundHalfEven (((countySubtotals records).map (fun p => p.2.1)).sum) : ℤ) : ℚ) :=
    rfl
  have hcont : (aggregateScenario scenario records).contents =
      ((roundHalfEven (((countySubtotals records).map (fun p => p.2.2)).sum) : ℤ) : ℚ) :=
    rfl
  rw [htotal, hbuild, hcont]
  have h1 : ((roundHalfEven (((countySubtotals records).map (fun p => p.2.1)).sum) : ℤ) : ℚ) +
      ((roundHalfEven (((countySubtotals records).map (fun p => p.2.2)).sum) : ℤ) : ℚ) =
      (((roundHalfEven (((countySubtotals records).map (fun p => p.2.1)).sum) +
        roundHalfEven (((countySubtotals records).map (fun p => p.2.2)).sum) : ℤ)) : ℚ) := by
    push_cast
    ring
  rw [h1, roundHalfEven_intCast]

/-- Witness for aggregation_spec: two loss records in two counties. -/
theorem aggregation_spec_witness :
    ((countySubtotals
      [⟨1, "22071", 12, 3, 80, 100, 50⟩, ⟨2, "22051", 13, 2, 90, 200, 75⟩]).map
        (fun p => p.2.1)).sum =
      ([⟨1, "22071", 12, 3, 80, 100, 50⟩,
        (⟨2, "22051", 13, 2, 90, 200, 75⟩ : LossRec)].map
          (fun r => r.buildingLoss)).sum :=
  (aggregation_spec "ida_2021"
    [⟨1, "22071", 12, 3, 80, 100, 50⟩, ⟨2, "22051", 13, 2, 90, 200, 75⟩]).1

/-! ### Per-building skip policy (claim C8) -/

theorem foldlM_skip {β : Type} (f : β → Enriched → Except Unit β) (e : Enriched)
    (hf : ∀ acc, f acc e = Except.ok acc) :
    ∀ (l1 l2 : List Enriched) (acc : β),
      (l1 ++ e :: l2).foldlM f acc = (l1 ++ l2).foldlM f acc := by
  intro l1
  induction l1 with
  | nil =>
    intro l2 acc
    simp only [List.nil_append, List.foldlM_cons, hf]
    rfl
  | cons a l1 ih =>
    intro l2 acc
    simp only [List.cons_append, List.foldlM_cons]
    rcases hfa : f acc a with er | acc2
    · rfl
    · exact ih l2 acc2

/-- Claim C8, amended: every per-building skip condition (county with no
scheme mapping, occupancy code with no scheme entry, missing damage curve,
missing wind-speed assignment) drops the affected building or group from
the output of the stage without raising an exception, and all other buildings
are processed exactly as they would be without the skipped one; but of
these skips only the county-scheme one is surfaced (logged), while the
occupancy, missing-curve and missing-wind skips leave no individual trace
in the run-level reporting (the loss stage reports only the count of
buildings processed). -/
theorem skip_policy_spec :
    (∀ (T : HazusTables) (seed : Nat) (nsi : List Building) (cfip : String)
      (g : Nat), T.countySchemes.find? (fun r => r.countyFIPS = cfip) = none →
      processCounty T seed nsi cfip g = ([], [SkipEvent.missingScheme cfip], g)) ∧
    (∀ (T : HazusTables) (seed : Nat) (schemeName : String)
      (huOccMap : List OccMapRow) (occ : String) (group : List Building)
      (g : Nat), huOccMap.filter (fun r => r.occupancy = occBase occ) = [] →
      processOcc T seed schemeName huOccMap occ group g = ([], g)) ∧
    (∀ (dam : List DamRow) (windTbl : List WindRow) (e : Enriched) (w : Nat),
      e.wbID = some w →
      windTbl.find? (fun r => r.fd_id = e.b.fd_id) = none →
      calcBuilding dam windTbl e = Except.ok none) ∧
    (∀ (dam : List DamRow) (windTbl : List WindRow) (e : Enriched) (w : Nat)
      (wr : WindRow), e.wbID = some w →
      windTbl.find? (fun r => r.fd_id = e.b.fd_id) = some wr →
      dam.find? (fun r => r.wbID = w ∧ r.terrainID = e.terrainID ∧
        r.damLossDescID = BUILDING_DAMAGE_ID) = none →
      calcBuilding dam windTbl e = Except.ok none) ∧
    (∀ (dam : List DamRow) (windTbl : List WindRow) (e : Enriched) (w : Nat)
      (wr : WindRow), e.wbID = some w →
      windTbl.find? (fun r => r.fd_id = e.b.fd_id) = some wr →
      dam.find? (fun r => r.wbID = w ∧ r.terrainID = e.terrainID ∧
        r.damLossDescID = CONTENTS_DAMAGE_ID) = none →
      calcBuilding dam windTbl e = Except.ok none) ∧
    (∀ (dam : List DamRow) (windTbl : List WindRow) (e : Enriched)
      (l1 l2 : List Enriched), calcBuilding dam windTbl e = Except.ok none →
      calcLosses dam windTbl (l1 ++ e :: l2) = calcLosses dam windTbl (l1 ++ l2)) := by
  refine ⟨?_, ?_, ?_, ?_, ?_, ?_⟩
  · intro T seed nsi cfip g h
    unfold processCounty
    rw [h]
  · intro T seed schemeName huOccMap occ group g h
    simp only [processOcc]
    rw [h]
    rfl
  · intro dam windTbl e w hwb hwind
    unfold calcBuilding
    rw [hwb, hwind]
  · intro dam windTbl e w wr hwb hwind hbf
    unfold calcBuilding
    rw [hwb, hwind]
    rcases hcf : dam.find? (fun r => r.wbID = w ∧ r.terrainID = e.terrainID ∧
        r.damLossDescID = CONTENTS_DAMAGE_ID) with _ | cf <;>
      simp only [hbf, hcf]
  · intro dam windTbl e w wr hwb hwind hcf
    unfold calcBuilding
    rw [hwb, hwind]
    rcases hbf : dam.find? (fun r => r.wbID = w ∧ r.terrainID = e.terrainID ∧
        r.damLossDescID = BUILDING_DAMAGE_ID) with _ | bf <;>
      simp only [hbf, hcf]
  · intro dam windTbl e l1 l2 h
    unfold calcLosses
    refine foldlM_skip _ e (fun acc => ?_) l1 l2 ([], 0)
    show (match calcBuilding dam windTbl e with
      | Except.error er => Except.error er
      | Except.ok none => Except.ok acc
      | Except.ok (some lr) => Except.ok (acc.1 ++ [lr], acc.2 + 1)) = Except.ok acc
    rw [h]

/-- Witness for skip_policy_spec: a county with no scheme mapping, and a
building skipped for a missing damage curve amid another that is processed
normally. -/
theorem skip_policy_spec_witness :
    processCounty ⟨[], [], [], [], [], []⟩ 121
        [⟨7, "220710000000000", "RES1", "W", 0, 200000, 100000⟩] "22071" 5 =
      ([], [SkipEvent.missingScheme "22071"], 5) ∧
    calcLosses [⟨12, 3, 5, [(50, 0)]⟩, ⟨12, 3, 6, [(50, 0)]⟩] [⟨1, 80⟩, ⟨2, 80⟩]
        ([] ++ (⟨⟨1, "220710000000001", "RES1", "W", 0, 1000, 500⟩,
          "22071", "WSF1", [], some 99, 3⟩ : Enriched) ::
          [⟨⟨2, "220710000000002", "RES1", "W", 0, 1000, 500⟩,
            "22071", "WSF2", [], some 12, 3⟩]) =
      calcLosses [⟨12, 3, 5, [(50, 0)]⟩, ⟨12, 3, 6, [(50, 0)]⟩] [⟨1, 80⟩, ⟨2, 80⟩]
        ([] ++ [⟨⟨2, "220710000000002", "RES1", "W", 0, 1000, 500⟩,
          "22071", "WSF2", [], some 12, 3⟩]) :=
  ⟨skip_policy_spec.1 ⟨[], [], [], [], [], []⟩ 121
      [⟨7, "220710000000000", "RES1", "W", 0, 200000, 100000⟩] "22071" 5 rfl,
    skip_policy_spec.2.2.2.2.2 _ _ _ [] _ rfl⟩

/-- Counterexample to claim C8 as stated: skips are not all counted and
surfaced.  A county whose scheme exists but whose single occupancy code has
no scheme entry contributes zero buildings and zero surfaced skip events;
and a building skipped in the loss stage for a missing damage curve leaves
as the whole run-level report of the stage just the count of processed
buildings (here 1), with no record of the skip and no exception. -/
theorem skips_not_surfaced_counterexample :
    processCounty ⟨[⟨"22071", "S1"⟩], [], [], [], [], []⟩ 121
        [⟨7, "220710000000000", "RES1", "W", 0, 200000, 100000⟩] "22071" 5 =
      ([], [], 5) ∧
    (calcLosses [⟨12, 3, 5, [(50, 0)]⟩, ⟨12, 3, 6, [(50, 0)]⟩] [⟨1, 80⟩, ⟨2, 80⟩]
      [⟨⟨1, "220710000000001", "RES1", "W", 0, 1000, 500⟩,
        "22071", "WSF1", [], some 99, 3⟩,
       ⟨⟨2, "220710000000002", "RES1", "W", 0, 1000, 500⟩,
        "22071", "WSF2", [], some 12, 3⟩]).map
      (fun p => (p.1.map (fun r => r.fd_id), p.2)) = Except.ok ([2], 1) :=
  ⟨by decide, rfl⟩

/-! ### Characterization crash and seeding (claim C9) -/

/-- Claim C9 (code bug): line 182 builds the county list with str(io) while
the loop variable is i; the undefined name io raises NameError as soon as
the building table is nonempty, so a fresh characterization run produces no
output at all, let alone reproducible output.  Separately, the modelled
pass discards the ambient generator state (np.random.seed at line 188 and
before every draw block), which is the mechanism the reproducibility claim
relies on: the result does not depend on the pre-existing generator
state. -/
theorem characterize_line182_bug :
    characterizePass 0 RANDOM_SEED
        ⟨[⟨"22071", "S1"⟩], [], [], [], [], []⟩
        [⟨7, "220710000000000", "RES1", "W", 0, 200000, 100000⟩] =
      Except.error () ∧
    (∀ (g1 g2 seed : Nat) (T : HazusTables) (nsi : List Building),
      characterizePass g1 seed T nsi = characterizePass g2 seed T nsi) :=
  ⟨rfl, fun g1 g2 seed T nsi => rfl⟩

end WindDamage
